import Mathlib

/-!
Verification of the snapshot-service screenshot pipeline.

This file gives a shallow embedding of the pipeline of the snapshot
service — the browser pool (`getBrowser` / `releaseBrowser`), the renderer
(`takeSnapshotScreenshot` / `buildCompleteHtml`), the job handler
(`processSnapshotJob`), the queue configuration and statistics
(`snapshotQueueJobOptions` / `getQueueStats`), and the store operations
(`saveSnapshot`, `updateSnapshotStatus`, `saveScreenshot`,
`getScreenshot`, `cleanupSnapshotDomData`) — and proves properties of the
embedded operations.  External effects (browser process health, page
loads, sqlite write failures) are parametrized by explicit oracle values;
everything else follows the JavaScript source line by line.
-/

namespace SnapshotService

/-! ## JavaScript string primitives -/

/-- Whitespace as recognised by JavaScript `String.prototype.trim`. -/
def jsWs (c : Char) : Bool :=
  c = ' ' ∨ c = '\t' ∨ c = '\n' ∨ c = '\r' ∨ c = '\x0b' ∨ c = '\x0c'

/-- JavaScript `s.trim()`: strip whitespace from both ends. -/
def jsTrim (l : List Char) : List Char :=
  ((l.dropWhile jsWs).reverse.dropWhile jsWs).reverse

/-- The literal matched by the regex `/justfly\.dev/g` in `buildCompleteHtml`. -/
def devUrl : List Char := "justfly.dev".data

/-- The replacement string `'justfly.com'` used by `buildCompleteHtml`. -/
def comUrl : List Char := "justfly.com".data

/-- JavaScript `html.replace(/justfly\.dev/g, 'justfly.com')`: scan left to
right; on a match emit the replacement and resume after the match
(non-overlapping), otherwise copy one character. -/
def replaceJustfly : List Char → List Char
  | [] => []
  | c :: rest =>
    if devUrl.isPrefixOf (c :: rest) then
      comUrl ++ replaceJustfly (rest.drop 10)
    else
      c :: replaceJustfly rest
termination_by l => l.length
decreasing_by
  · simp only [List.length_cons, List.length_drop]
    omega
  · simp only [List.length_cons]
    omega

/-- JavaScript falsy-or-default on numbers (`v || d`): `null`/`undefined`
and `0` both fall back to the default. -/
def jsNatOr (v : Option Nat) (d : Nat) : Nat :=
  match v with
  | none => d
  | some 0 => d
  | some n => n

/-- Numeric value of a run of leading decimal digits; `none` when the run
is empty (the `NaN` case of `parseInt`). -/
def digitsVal (l : List Char) : Option Nat :=
  let d := l.takeWhile Char.isDigit
  if d = [] then none
  else some (d.foldl (fun acc c => acc * 10 + (c.toNat - 48)) 0)

/-- JavaScript `parseInt(s, 10)`: skip leading whitespace, read an optional
sign and then leading decimal digits, ignoring any trailing junk; `none`
models `NaN`. -/
def jsParseInt (s : String) : Option Int :=
  match s.data.dropWhile jsWs with
  | '-' :: rest => (digitsVal rest).map (fun n => -(n : Int))
  | '+' :: rest => (digitsVal rest).map (fun n => (n : Int))
  | l => (digitsVal l).map (fun n => (n : Int))

/-- JavaScript `v || d` on a parsed integer: `NaN` (`none`) and `0` are
falsy and fall back to the default. -/
def jsIntOr (v : Option Int) (d : Int) : Int :=
  match v with
  | none => d
  | some n => if n = 0 then d else n

/-! ## Renderer: `buildCompleteHtml` (latest BrowserService iteration) -/

/-- Error thrown by `buildCompleteHtml` when no usable HTML is present. -/
def noHtmlMsg : String := "No HTML content available for screenshot generation"

/-- The latest `BrowserService.buildCompleteHtml`: reject missing or
all-whitespace HTML, then replace every `justfly.dev` occurrence with
`justfly.com` and return the processed HTML unchanged otherwise. -/
def buildCompleteHtml (html : Option String) : Except String String :=
  match html with
  | none => .error noHtmlMsg
  | some s =>
    if jsTrim s.data = [] then .error noHtmlMsg
    else .ok (String.mk (replaceJustfly s.data))

/-! ## Browser pool (latest BrowserService iteration) -/

/-- One pool slot, as created by `initialize`: a stable id, the health of
the underlying browser process (`checkBrowserHealth`: connected and
answering within the 3s probe), and the exclusive-use flag. -/
structure Slot where
  id : String
  healthy : Bool
  inUse : Bool
deriving DecidableEq, Repr

/-- Mutable state of the `BrowserService` pool: `browserPool` and the
`busyBrowsers` id set. -/
structure PoolState where
  pool : List Slot
  busy : List String
deriving DecidableEq, Repr

/-- Error thrown by `getBrowser` when every slot is busy. -/
def poolExhaustedMsg : String := "No available browsers in pool. All browsers are busy."

/-- Error propagated by `replaceBrowser` when launching the replacement
browser fails. -/
def launchFailedMsg : String := "Failed to launch browser"

/-- The `this.browserPool.find(b => !b.inUse)` step of `getBrowser`, kept
as the decomposition (slots before the hit, first free slot, slots after);
`none` when every slot is in use. -/
def findAvail : List Slot → Option (List Slot × Slot × List Slot)
  | [] => none
  | b :: rest =>
    if b.inUse then (findAvail rest).map (fun pbp => (b :: pbp.1, pbp.2.1, pbp.2.2))
    else some ([], b, rest)

/-- `busyBrowsers.add id` (a JS `Set`). -/
def addBusy (busy : List String) (id : String) : List String :=
  if id ∈ busy then busy else id :: busy

/-- The latest `BrowserService.getBrowser`.  It finds the first free slot,
fails with `poolExhaustedMsg` when there is none, health-checks the slot
and, when unhealthy, runs `replaceBrowser` (tear down the old process,
launch a fresh one under the same slot id, written into the pool in
place; on launch failure the slot is spliced out and the error rethrown).
The final `availableBrowser.inUse = true` mutates the object held by the
local variable: after a replacement that object is no longer the pool
entry, so the stale instance (with its closed browser) is returned while
the in-pool replacement keeps `inUse = false`. -/
def getBrowser (st : PoolState) (launchOk : Bool) : Except String Slot × PoolState :=
  match findAvail st.pool with
  | none => (.error poolExhaustedMsg, st)
  | some (pre, b, post) =>
    if b.healthy then
      let b' : Slot := { b with inUse := true }
      (.ok b', { pool := pre ++ b' :: post, busy := addBusy st.busy b.id })
    else if launchOk then
      let fresh : Slot := { id := b.id, healthy := true, inUse := false }
      let stale : Slot := { b with healthy := false, inUse := true }
      (.ok stale, { pool := pre ++ fresh :: post, busy := addBusy st.busy b.id })
    else
      (.error launchFailedMsg, { pool := pre ++ post, busy := st.busy })

/-- `releaseBrowser` body on the pool list: set `inUse := false` on the
first slot whose id matches (`this.browserPool.find(b => b.id === ...)`);
no-op when the id is absent. -/
def releaseSlot : List Slot → String → List Slot
  | [], _ => []
  | b :: rest, id =>
    if b.id = id then { b with inUse := false } :: rest
    else b :: releaseSlot rest id

/-- The latest `BrowserService.releaseBrowser`: clear the slot's `inUse`
flag and drop its id from `busyBrowsers`. -/
def releaseBrowser (st : PoolState) (handle : Slot) : PoolState :=
  { pool := releaseSlot st.pool handle.id, busy := st.busy.erase handle.id }

/-- Pool state right after `initialize`: `poolSize` fresh healthy slots
with ids `browser_0`, `browser_1`, .... -/
def initialPoolState (n : Nat) : PoolState :=
  { pool := (List.range n).map (fun i => { id := "browser_" ++ toString i, healthy := true, inUse := false }),
    busy := [] }

/-- Externally triggered pool transitions: an acquire (with the given
replacement-launch outcome), a release of a held handle, or an external
browser crash making a slot unhealthy. -/
inductive PoolOp where
  | acquire (launchOk : Bool)
  | release (handle : Slot)
  | crash (id : String)

/-- One pool transition. -/
def stepPool (st : PoolState) : PoolOp → PoolState
  | .acquire launchOk => (getBrowser st launchOk).2
  | .release h => releaseBrowser st h
  | .crash id =>
    { st with pool := st.pool.map (fun b => if b.id = id then { b with healthy := false } else b) }

/-- Run a sequence of pool transitions. -/
def runPool (st : PoolState) : List PoolOp → PoolState
  | [] => st
  | op :: ops => runPool (stepPool st op) ops

/-- Number of slots currently flagged `inUse`. -/
def countInUse (pool : List Slot) : Nat :=
  pool.countP (fun b => b.inUse)

/-! ## Snapshot store (database.js) -/

/-- One row of the `snapshots` table, restricted to the columns the
pipeline reads and writes. -/
structure SnapshotRow where
  html : Option String
  css : Option String
  viewport_width : Option Nat
  viewport_height : Option Nat
  processing_status : String
  processed_at : Option String
  queue_job_id : Option String
  screenshot : Option (List Nat)
  screenshot_format : Option String
  screenshot_width : Option Nat
  screenshot_height : Option Nat
  screenshot_size : Option Nat
deriving DecidableEq, Repr

/-- The snapshots table, keyed by snapshot id. -/
def Db : Type := List (String × SnapshotRow)

/-- `Database.getSnapshot`: `SELECT * FROM snapshots WHERE id = ?`. -/
def dbGetSnapshot : Db → String → Option SnapshotRow
  | [], _ => none
  | (k, v) :: rest, id => if k = id then some v else dbGetSnapshot rest id

/-- `UPDATE snapshots SET ... WHERE id = ?`: rewrite every row whose key
matches. -/
def updateRow (db : Db) (id : String) (f : SnapshotRow → SnapshotRow) : Db :=
  db.map (fun p => if p.1 = id then (p.1, f p.2) else p)

/-- `Database.updateSnapshotStatus`: set `processing_status` and
`processed_at` (the latter overwritten with NULL when not supplied). -/
def updateSnapshotStatus (db : Db) (id status : String) (processedAt : Option String) : Db :=
  updateRow db id (fun r => { r with processing_status := status, processed_at := processedAt })

/-- `Database.cleanupSnapshotDomData`: clear the stored `html` and `css`
(the screenshot and metadata survive). -/
def cleanupSnapshotDomData (db : Db) (id : String) : Db :=
  updateRow db id (fun r => { r with html := none, css := none })

/-- `BrowserService.saveScreenshot`: persist the image bytes together with
format, dimensions and size metadata. -/
def saveScreenshot (db : Db) (id : String) (bytes : List Nat) (fmt : String) (w h : Nat) : Db :=
  updateRow db id (fun r =>
    { r with
      screenshot := some bytes
      screenshot_format := some fmt
      screenshot_width := some w
      screenshot_height := some h
      screenshot_size := some bytes.length })

/-- The projection returned by `getScreenshot`. -/
structure ScreenshotRow where
  screenshot : Option (List Nat)
  screenshot_format : Option String
  screenshot_width : Option Nat
  screenshot_height : Option Nat
  screenshot_size : Option Nat
deriving DecidableEq, Repr

/-- `BrowserService.getScreenshot`: `SELECT screenshot, screenshot_format,
... FROM snapshots WHERE id = ?`. -/
def getScreenshot (db : Db) (id : String) : Option ScreenshotRow :=
  (dbGetSnapshot db id).map (fun r =>
    { screenshot := r.screenshot
      screenshot_format := r.screenshot_format
      screenshot_width := r.screenshot_width
      screenshot_height := r.screenshot_height
      screenshot_size := r.screenshot_size })

/-- Processing status of a stored snapshot, when the row exists. -/
def statusOf (db : Db) (id : String) : Option String :=
  (dbGetSnapshot db id).map (fun r => r.processing_status)

/-! ## Renderer: `takeSnapshotScreenshot` (latest BrowserService iteration) -/

/-- Observable pipeline events: puppeteer page operations and store
writes, recorded in program order. -/
inductive Ev where
  | newPage
  | disableJs
  | enableJs
  | setViewport (w h : Nat)
  | loadContent (html : String)
  | capture
  | closePage
  | statusWrite (id status : String)
  | screenshotWrite (id : String)
deriving DecidableEq, Repr

/-- Outcomes of the external effects inside one render: the replacement
launch in `getBrowser`, `newPage`, `setContent`, `page.screenshot` (with
the bytes it produces) and the sqlite write of `saveScreenshot`. -/
structure RenderOracle where
  launchOk : Bool
  newPageOk : Bool
  loadOk : Bool
  captureOk : Bool
  bytes : List Nat
  saveOk : Bool
deriving Repr

/-- JS truthiness of `decompressedSnapshot.html`: absent or empty string. -/
def htmlFalsy (h : Option String) : Bool :=
  match h with
  | none => true
  | some s => s = ""

/-- Result object of a successful `takeSnapshotScreenshot`. -/
structure ScreenshotResult where
  snapshotId : String
  screenshotSize : Nat
  format : String
  width : Nat
  height : Nat
deriving DecidableEq, Repr

/-- The part of `takeSnapshotScreenshot` that runs with the browser held
(the body of the outer `try`): fetch the snapshot, reject missing HTML,
open a page, disable JavaScript, set the viewport, build the processed
HTML, load it, capture a full-page PNG and persist it; the inner
`finally` closes the page on every path after `newPage` succeeded. -/
def screenshotWithBrowser (db : Db) (snapshotId : String) (o : RenderOracle) :
    Except String ScreenshotResult × Db × List Ev :=
  match dbGetSnapshot db snapshotId with
  | none => (.error ("Snapshot " ++ snapshotId ++ " not found"), db, [])
  | some snap =>
    if htmlFalsy snap.html then
      (.error ("No HTML content available for snapshot " ++ snapshotId), db, [])
    else if o.newPageOk = false then
      (.error "Failed to open a new page", db, [])
    else
      let vw := jsNatOr snap.viewport_width 1920
      let vh := jsNatOr snap.viewport_height 1080
      let pre : List Ev := [.newPage, .disableJs, .setViewport vw vh]
      match buildCompleteHtml snap.html with
      | .error e => (.error e, db, pre ++ [.closePage])
      | .ok fullHtml =>
        if o.loadOk = false then
          (.error "Navigation timeout of 30000 ms exceeded", db, pre ++ [.loadContent fullHtml, .closePage])
        else if o.captureOk = false then
          (.error "Screenshot capture failed", db, pre ++ [.loadContent fullHtml, .closePage])
        else if o.saveOk = false then
          (.error "Error saving screenshot", db, pre ++ [.loadContent fullHtml, .capture, .closePage])
        else
          (.ok { snapshotId := snapshotId, screenshotSize := o.bytes.length,
                 format := "png", width := vw, height := vh },
           saveScreenshot db snapshotId o.bytes "png" vw vh,
           pre ++ [.loadContent fullHtml, .capture, .screenshotWrite snapshotId, .closePage])

/-- The latest `BrowserService.takeSnapshotScreenshot`: acquire a browser
(an acquisition failure propagates before the `try`), run the render
body, and release the browser in the outer `finally` whether the body
succeeded or threw. -/
def takeSnapshotScreenshot (st : PoolState) (db : Db) (snapshotId : String) (o : RenderOracle) :
    Except String ScreenshotResult × PoolState × Db × List Ev :=
  match getBrowser st o.launchOk with
  | (.error e, st1) => (.error e, st1, db, [])
  | (.ok inst, st1) =>
    let body := screenshotWithBrowser db snapshotId o
    (body.1, releaseBrowser st1 inst, body.2.1, body.2.2)

/-! ## Orchestrator: `SnapshotQueue.processSnapshotJob` (latest iteration) -/

/-- Outcomes of the external effects of one job run: the render oracle,
the sqlite status writes (`processing`, `failed`, `completed`), the DOM
cleanup, and the wall-clock timestamp used for `processedAt`. -/
structure JobOracle where
  render : RenderOracle
  processingWriteOk : Bool
  cleanupOk : Bool
  completedWriteOk : Bool
  failedWriteOk : Bool
  now : String
deriving Repr

/-- Result object of a successful `processSnapshotJob`. -/
structure JobResult where
  snapshotId : String
  status : String
  htmlSize : Nat
  domDataCleaned : Bool
deriving DecidableEq, Repr

/-- The `catch` block of `processSnapshotJob`: best-effort transition of
the snapshot to `failed` (a failing write is only logged and changes
nothing), then rethrow the original error unchanged. -/
def jobCatch (db : Db) (st : PoolState) (id msg : String) (evs : List Ev) (failedWriteOk : Bool) :
    Except String JobResult × PoolState × Db × List Ev :=
  if failedWriteOk then
    (.error msg, st, updateSnapshotStatus db id "failed" none, evs ++ [.statusWrite id "failed"])
  else
    (.error msg, st, db, evs)

/-- The latest `SnapshotQueue.processSnapshotJob`: fetch the snapshot
(missing is an error), mark it `processing`, run
`takeSnapshotScreenshot`, clean the DOM data (a cleanup failure is
swallowed), and mark the snapshot `completed` with the current timestamp;
any error reaches the `catch` block (`jobCatch`). -/
def processSnapshotJob (st : PoolState) (db : Db) (id : String) (o : JobOracle) :
    Except String JobResult × PoolState × Db × List Ev :=
  match dbGetSnapshot db id with
  | none => jobCatch db st id ("Snapshot not found: " ++ id) [] o.failedWriteOk
  | some snap =>
    if o.processingWriteOk = false then
      jobCatch db st id "SQLITE_ERROR: cannot update snapshot status" [] o.failedWriteOk
    else
      let db1 := updateSnapshotStatus db id "processing" none
      let evs1 : List Ev := [.statusWrite id "processing"]
      match takeSnapshotScreenshot st db1 id o.render with
      | (.error e, st2, db2, evs2) => jobCatch db2 st2 id e (evs1 ++ evs2) o.failedWriteOk
      | (.ok _, st2, db2, evs2) =>
        let db3 := if o.cleanupOk then cleanupSnapshotDomData db2 id else db2
        if o.completedWriteOk = false then
          jobCatch db3 st2 id "SQLITE_ERROR: cannot update snapshot status" (evs1 ++ evs2) o.failedWriteOk
        else
          (.ok { snapshotId := id, status := "completed",
                 htmlSize := (match snap.html with | some h => h.length | none => 0),
                 domDataCleaned := o.cleanupOk },
           st2,
           updateSnapshotStatus db3 id "completed" (some o.now),
           evs1 ++ evs2 ++ [.statusWrite id "completed"])

/-- Run a sequence of jobs (each a snapshot id with the outcomes of its
external effects), threading pool and store state and concatenating the
event logs. -/
def runJobs (st : PoolState) (db : Db) : List (String × JobOracle) → PoolState × Db × List Ev
  | [] => (st, db, [])
  | (id, o) :: rest =>
    let r := processSnapshotJob st db id o
    let r2 := runJobs r.2.1 r.2.2.1 rest
    (r2.1, r2.2.1, r.2.2.2 ++ r2.2.2)

/-! ## Trace predicates -/

/-- First terminal (`completed` or `failed`) status recorded for `id` in
an event log. -/
def firstTerminalFor (id : String) : List Ev → Option String
  | [] => none
  | .statusWrite i s :: r =>
    if i = id ∧ (s = "completed" ∨ s = "failed") then some s else firstTerminalFor id r
  | _ :: r => firstTerminalFor id r

/-- Every persisted screenshot is followed by a `completed` status record
for its id before any other terminal status record for that id. -/
def goodLog : List Ev → Bool
  | [] => true
  | .screenshotWrite id :: r => (firstTerminalFor id r = some "completed") && goodLog r
  | _ :: r => goodLog r

/-- Scan a trace tracking whether page JavaScript is enabled (pages start
with it enabled); fail if any content load happens while it is enabled. -/
def noLoadWhileJsEnabled (enabled : Bool) : List Ev → Bool
  | [] => true
  | .disableJs :: r => noLoadWhileJsEnabled false r
  | .enableJs :: r => noLoadWhileJsEnabled true r
  | .loadContent _ :: r => !enabled && noLoadWhileJsEnabled enabled r
  | _ :: r => noLoadWhileJsEnabled enabled r

/-! ## Queue configuration (latest SnapshotQueue iteration, `initialize`) -/

/-- The `defaultJobOptions` handed to the queue: attempt cap and backoff
base delay from `QUEUE_ATTEMPTS` / `QUEUE_BACKOFF_MS`, plus the fixed
backoff type and retention caps. -/
structure QueueJobOptions where
  attempts : Int
  backoffType : String
  backoffDelayMs : Int
  removeOnComplete : Nat
  removeOnFail : Nat
deriving DecidableEq, Repr

/-- `SnapshotQueue.initialize`, configuration part:
`parseInt(process.env.QUEUE_ATTEMPTS || '', 10) || 5` and
`parseInt(process.env.QUEUE_BACKOFF_MS || '', 10) || 5000`, with
exponential backoff and the 100/50 retention caps. -/
def snapshotQueueJobOptions (attemptsEnv backoffEnv : Option String) : QueueJobOptions :=
  { attempts := jsIntOr (jsParseInt (attemptsEnv.getD "")) 5
    backoffType := "exponential"
    backoffDelayMs := jsIntOr (jsParseInt (backoffEnv.getD "")) 5000
    removeOnComplete := 100
    removeOnFail := 50 }

/-- Delay semantics of the queue's `exponential` backoff type: retry
number `k` (zero-based) waits `base * 2 ^ k` milliseconds, i.e. the base
delay doubled on each further attempt. -/
def exponentialBackoffDelay (base : Int) (retry : Nat) : Int :=
  base * 2 ^ retry

/-! ## Queue statistics (latest SnapshotQueue iteration, `getQueueStats`) -/

/-- The per-state counters returned by the queue backend's
`getJobCounts('waiting', 'active', 'completed', 'failed', 'delayed')`;
absent counters read as `undefined`. -/
structure JobCounts where
  waiting : Option Nat
  active : Option Nat
  completed : Option Nat
  failed : Option Nat
  delayed : Option Nat
deriving DecidableEq, Repr

/-- The six-field statistics object of `getQueueStats`. -/
structure QueueStats where
  waiting : Nat
  active : Nat
  completed : Nat
  failed : Nat
  delayed : Nat
  total : Nat
deriving DecidableEq, Repr

/-- The latest `SnapshotQueue.getQueueStats`: read the O(1) per-state
counters (defaulting absent ones to 0 via `|| 0`), return them with
`total` as their sum; on a backend error return all zeroes. -/
def getQueueStats (counts : Except String JobCounts) : QueueStats :=
  match counts with
  | .error _ => { waiting := 0, active := 0, completed := 0, failed := 0, delayed := 0, total := 0 }
  | .ok c =>
    let waiting := c.waiting.getD 0
    let active := c.active.getD 0
    let completed := c.completed.getD 0
    let failed := c.failed.getD 0
    let delayed := c.delayed.getD 0
    { waiting := waiting, active := active, completed := completed,
      failed := failed, delayed := delayed,
      total := waiting + active + completed + failed + delayed }

/-! ## Submission (snapshotController POST /snapshot + Database.saveSnapshot) -/

/-- The `options` payload fields the submission path reads. -/
structure SubmitOptions where
  url : Option String
  viewport : Option (Nat × Nat)
deriving DecidableEq, Repr

/-- The `snapshotData` object built by the `POST /snapshot` handler for an
accepted request: raw html/css and, notably, `processingStatus: 'queued'`. -/
structure SnapshotData where
  id : String
  html : String
  css : Option String
  url : Option String
  viewport : Option (Nat × Nat)
  queueJobId : Option String
  processingStatus : Option String
deriving DecidableEq, Repr

/-- The controller's `snapshotData` literal (snapshotController.js,
`POST /snapshot`). -/
def controllerSnapshotData (id html : String) (css : Option String) (opts : SubmitOptions) :
    SnapshotData :=
  { id := id, html := html, css := css, url := opts.url, viewport := opts.viewport,
    queueJobId := none, processingStatus := some "queued" }

/-- JS `v || null` on an optional string: the empty string is falsy. -/
def jsStrOrNull (v : Option String) : Option String :=
  match v with
  | none => none
  | some s => if s = "" then none else some s

/-- JS `v || null` on an optional number: `0` is falsy. -/
def jsNatOrNull (v : Option Nat) : Option Nat :=
  match v with
  | none => none
  | some 0 => none
  | some n => n

/-- `Database.saveSnapshot`: `INSERT INTO snapshots (...)` with the
parameter defaults of the source (`html || null`, `css || null`,
`processingStatus || 'pending'`); the screenshot columns are not in the
column list so they start NULL, and a duplicate primary key makes the
insert fail. -/
def saveSnapshot (db : Db) (d : SnapshotData) : Except String Db :=
  if (dbGetSnapshot db d.id).isSome then
    .error "SQLITE_CONSTRAINT: UNIQUE constraint failed: snapshots.id"
  else
    .ok ((d.id,
      { html := jsStrOrNull (some d.html)
        css := jsStrOrNull d.css
        viewport_width := jsNatOrNull (d.viewport.map (fun v => v.1))
        viewport_height := jsNatOrNull (d.viewport.map (fun v => v.2))
        processing_status := match d.processingStatus with
          | none => "pending"
          | some s => if s = "" then "pending" else s
        processed_at := none
        queue_job_id := d.queueJobId
        screenshot := none
        screenshot_format := none
        screenshot_width := none
        screenshot_height := none
        screenshot_size := none }) :: db)

/-- The `POST /snapshot` handler up to the store write: reject a falsy
`html` with the 400 error, otherwise persist the controller's
`snapshotData` (job enqueueing and the job-id backfill follow the insert
and do not touch the created row's status or screenshot). -/
def postSnapshot (db : Db) (id html : String) (css : Option String) (opts : SubmitOptions) :
    Except String Db :=
  if html = "" then .error "HTML content is required"
  else saveSnapshot db (controllerSnapshotData id html css opts)

/-! ## C8: queue statistics -/

/-- C8: for every queue state, `getQueueStats` returns the six fields
waiting, active, completed, failed, delayed and total, derived from the
per-state counters (absent counters reading as 0), and `total` always
equals the sum of the five per-state counts — also on the error fallback. -/
theorem getQueueStats_six_fields_total_consistent :
    (∀ counts : Except String JobCounts,
        (getQueueStats counts).total =
          (getQueueStats counts).waiting + (getQueueStats counts).active +
            (getQueueStats counts).completed + (getQueueStats counts).failed +
            (getQueueStats counts).delayed)
    ∧ (∀ c : JobCounts,
        getQueueStats (.ok c) =
          { waiting := c.waiting.getD 0, active := c.active.getD 0,
            completed := c.completed.getD 0, failed := c.failed.getD 0,
            delayed := c.delayed.getD 0,
            total := c.waiting.getD 0 + c.active.getD 0 + c.completed.getD 0 +
              c.failed.getD 0 + c.delayed.getD 0 }) := by
  constructor
  · intro counts
    cases counts <;> rfl
  · intro c
    rfl

/-! ## C2: retry policy -/

/-- C2: the queue's default retry policy is 5 attempts with exponential
backoff from a 5000ms base delay (retry `k` waits `base * 2 ^ k`, i.e.
the delay doubles each attempt), and both the attempt cap and the base
delay are overridden by any nonzero integer parsed from the environment
variables read at startup. -/
theorem retry_policy_default_and_configurable :
    ((snapshotQueueJobOptions none none).attempts = 5
      ∧ (snapshotQueueJobOptions none none).backoffType = "exponential"
      ∧ (snapshotQueueJobOptions none none).backoffDelayMs = 5000)
    ∧ (∀ base : Int, exponentialBackoffDelay base 0 = base)
    ∧ (∀ (base : Int) (k : Nat),
        exponentialBackoffDelay base (k + 1) = 2 * exponentialBackoffDelay base k)
    ∧ (∀ (a : String) (n : Int), jsParseInt a = some n → n ≠ 0 →
        ∀ b, (snapshotQueueJobOptions (some a) b).attempts = n)
    ∧ (∀ (b : String) (m : Int), jsParseInt b = some m → m ≠ 0 →
        ∀ a, (snapshotQueueJobOptions a (some b)).backoffDelayMs = m) := by
  refine ⟨⟨by decide, by decide, by decide⟩, ?_, ?_, ?_, ?_⟩
  · intro base
    simp [exponentialBackoffDelay]
  · intro base k
    simp only [exponentialBackoffDelay, pow_succ]
    ring
  · intro a n ha hn b
    simp [snapshotQueueJobOptions, ha, jsIntOr, hn]
  · intro b m hb hm a
    simp [snapshotQueueJobOptions, hb, jsIntOr, hm]

/-- Witness: with `QUEUE_ATTEMPTS=7` and `QUEUE_BACKOFF_MS=9000` the
configured policy is 7 attempts with a 9000ms base delay. -/
theorem retry_policy_default_and_configurable_witness :
    (snapshotQueueJobOptions (some "7") (some "9000")).attempts = 7
      ∧ (snapshotQueueJobOptions (some "7") (some "9000")).backoffDelayMs = 9000 :=
  ⟨retry_policy_default_and_configurable.2.2.2.1 "7" 7 (by decide) (by decide) _,
   retry_policy_default_and_configurable.2.2.2.2 "9000" 9000 (by decide) (by decide) _⟩

/-! ## C9: submission record -/

/-- C9 counterexample: the record created for an accepted submission has
`processing_status = "queued"` (with a NULL screenshot), not `"pending"`
as claimed. -/
theorem submission_pending_counterexample :
    ∃ row, postSnapshot [] "snap_1" "<h1>Hi</h1>" none { url := none, viewport := none } =
        .ok [("snap_1", row)]
      ∧ row.processing_status = "queued"
      ∧ row.processing_status ≠ "pending"
      ∧ row.screenshot = none :=
  ⟨_, rfl, rfl, by decide, rfl⟩

/-- C9 (amended): for every snapshot accepted at submission (truthy html,
fresh id), the record created in the store has `processing_status`
`"queued"` and a NULL screenshot. -/
theorem submission_creates_queued_record :
    ∀ (db : Db) (id html : String) (css : Option String) (opts : SubmitOptions),
      html ≠ "" → dbGetSnapshot db id = none →
      ∃ db2, postSnapshot db id html css opts = .ok db2
        ∧ statusOf db2 id = some "queued"
        ∧ (getScreenshot db2 id).map (fun r => r.screenshot) = some none := by
  intro db id html css opts hhtml hfresh
  simp only [postSnapshot, if_neg hhtml, saveSnapshot, controllerSnapshotData, hfresh,
    Option.isSome_none, Bool.false_eq_true, if_false]
  exact ⟨_, rfl, by simp [statusOf, dbGetSnapshot], by simp [getScreenshot, dbGetSnapshot]⟩

/-- Witness: a concrete accepted submission creates a `queued` record with
no screenshot. -/
theorem submission_creates_queued_record_witness :
    ∃ db2, postSnapshot [] "snap_2" "<p>x</p>" (some "p{}") { url := none, viewport := none } = .ok db2
      ∧ statusOf db2 "snap_2" = some "queued"
      ∧ (getScreenshot db2 "snap_2").map (fun r => r.screenshot) = some none :=
  submission_creates_queued_record [] "snap_2" "<p>x</p>" (some "p{}")
    { url := none, viewport := none } (by decide) rfl

/-! ## Pool lemmas -/

theorem findAvail_eq_some {l : List Slot} {pre : List Slot} {b : Slot} {post : List Slot}
    (h : findAvail l = some (pre, b, post)) :
    l = pre ++ b :: post ∧ b.inUse = false ∧ ∀ x ∈ pre, x.inUse = true := by
  induction l generalizing pre b post with
  | nil => simp [findAvail] at h
  | cons a rest ih =>
    by_cases ha : a.inUse = true
    · cases hr : findAvail rest with
      | none => simp [findAvail, ha, hr] at h
      | some pbp =>
        obtain ⟨pre2, b2, post2⟩ := pbp
        simp only [findAvail, if_pos ha, hr, Option.map_some', Option.some.injEq,
          Prod.mk.injEq] at h
        obtain ⟨hpre, hb, hpost⟩ := h
        obtain ⟨hl, hbu, hall⟩ := ih hr
        subst hpre hb hpost
        refine ⟨by simp [hl], hbu, ?_⟩
        intro x hx
        rcases List.mem_cons.mp hx with hx | hx
        · exact hx ▸ ha
        · exact hall x hx
    · simp only [findAvail, if_neg ha, Option.some.injEq, Prod.mk.injEq] at h
      obtain ⟨hpre, hb, hpost⟩ := h
      subst hpre hb hpost
      exact ⟨rfl, by simpa using ha, by simp⟩

theorem findAvail_eq_none {l : List Slot} :
    findAvail l = none ↔ ∀ b ∈ l, b.inUse = true := by
  induction l with
  | nil => simp [findAvail]
  | cons a rest ih =>
    by_cases ha : a.inUse = true
    · cases hr : findAvail rest with
      | none =>
        simp only [findAvail, if_pos ha, hr, Option.map_none', List.mem_cons, true_iff]
        intro b hb
        rcases hb with hb | hb
        · exact hb ▸ ha
        · exact ih.mp hr b hb
      | some pbp =>
        obtain ⟨pre2, b2, post2⟩ := pbp
        obtain ⟨hl, hbu, _⟩ := findAvail_eq_some hr
        have hmem : b2 ∈ a :: rest := by
          rw [hl]
          exact List.mem_cons_of_mem a (by simp)
        simp only [findAvail, if_pos ha, hr, Option.map_some']
        constructor
        · intro hfalse
          exact absurd hfalse (by simp)
        · intro hall
          exact absurd (hall b2 hmem) (by simp [hbu])
    · simp [findAvail, ha]

theorem releaseSlot_length (l : List Slot) (id : String) :
    (releaseSlot l id).length = l.length := by
  induction l with
  | nil => rfl
  | cons a rest ih => by_cases ha : a.id = id <;> simp [releaseSlot, ha, ih]

theorem stepPool_length_le (st : PoolState) (op : PoolOp) :
    (stepPool st op).pool.length ≤ st.pool.length := by
  cases op with
  | acquire lk =>
    simp only [stepPool, getBrowser]
    cases hf : findAvail st.pool with
    | none => simp
    | some pbp =>
      obtain ⟨pre, b, post⟩ := pbp
      obtain ⟨hl, _, _⟩ := findAvail_eq_some hf
      by_cases hb : b.healthy = true
      · simp [hb, hl]
      · by_cases hlk : lk = true <;> simp [hb, hlk, hl]
  | release h => simp [stepPool, releaseBrowser, releaseSlot_length]
  | crash id => simp [stepPool]

theorem runPool_length_le (st : PoolState) (ops : List PoolOp) :
    (runPool st ops).pool.length ≤ st.pool.length := by
  induction ops generalizing st with
  | nil => exact le_refl _
  | cons op ops ih => exact le_trans (ih (stepPool st op)) (stepPool_length_le st op)

/-! ## C3: pool exclusivity and acquire semantics -/

/-- C3: from the initialized pool, over every sequence of acquire,
release and crash transitions the number of slots flagged `inUse` never
exceeds the configured pool size; when every slot is busy, `getBrowser`
fails immediately with the pool-exhausted error and leaves the state
unchanged; and a successful `getBrowser` returns a handle carrying the id
of the first free slot with its `inUse` flag set. -/
theorem pool_exclusivity_and_acquire :
    (∀ (n : Nat) (ops : List PoolOp), countInUse (runPool (initialPoolState n) ops).pool ≤ n)
    ∧ (∀ (st : PoolState) (lk : Bool), (∀ b ∈ st.pool, b.inUse = true) →
        getBrowser st lk = (.error poolExhaustedMsg, st))
    ∧ (∀ (st : PoolState) (lk : Bool) (pre post : List Slot) (b r : Slot) (st2 : PoolState),
        findAvail st.pool = some (pre, b, post) →
        getBrowser st lk = (.ok r, st2) →
        b.inUse = false ∧ (∀ x ∈ pre, x.inUse = true) ∧ r.id = b.id ∧ r.inUse = true) := by
  refine ⟨?_, ?_, ?_⟩
  · intro n ops
    have h1 : countInUse (runPool (initialPoolState n) ops).pool ≤
        (runPool (initialPoolState n) ops).pool.length := List.countP_le_length _
    have h2 := runPool_length_le (initialPoolState n) ops
    have h3 : (initialPoolState n).pool.length = n := by simp [initialPoolState]
    omega
  · intro st lk hbusy
    simp [getBrowser, findAvail_eq_none.mpr hbusy]
  · intro st lk pre post b r st2 hf hacq
    obtain ⟨_, hbu, hall⟩ := findAvail_eq_some hf
    simp only [getBrowser, hf] at hacq
    by_cases hb : b.healthy = true
    · simp only [if_pos hb, Prod.mk.injEq, Except.ok.injEq] at hacq
      exact ⟨hbu, hall, by simp [← hacq.1], by simp [← hacq.1]⟩
    · by_cases hlk : lk = true
      · simp only [if_neg hb, if_pos hlk, Prod.mk.injEq, Except.ok.injEq] at hacq
        exact ⟨hbu, hall, by simp [← hacq.1], by simp [← hacq.1]⟩
      · simp [if_neg hb, hlk] at hacq

/-- Witness: a two-slot pool keeps at most two slots in use over a
concrete transition sequence; a fully busy pool rejects an acquire
unchanged; and acquiring from a pool whose second slot is the first free
one returns that slot's id flagged in use. -/
theorem pool_exclusivity_and_acquire_witness :
    countInUse (runPool (initialPoolState 2)
        [.acquire true, .acquire true, .acquire true,
         .release { id := "browser_0", healthy := true, inUse := true }, .acquire true]).pool ≤ 2
    ∧ getBrowser { pool := [{ id := "browser_0", healthy := true, inUse := true }], busy := ["browser_0"] } true =
        (.error poolExhaustedMsg,
         { pool := [{ id := "browser_0", healthy := true, inUse := true }], busy := ["browser_0"] })
    ∧ ({ id := "browser_1", healthy := true, inUse := false } : Slot).inUse = false
      ∧ (∀ x ∈ [({ id := "browser_0", healthy := true, inUse := true } : Slot)], x.inUse = true)
      ∧ ({ id := "browser_1", healthy := true, inUse := true } : Slot).id =
          ({ id := "browser_1", healthy := true, inUse := false } : Slot).id
      ∧ ({ id := "browser_1", healthy := true, inUse := true } : Slot).inUse = true :=
  ⟨pool_exclusivity_and_acquire.1 2 _,
   pool_exclusivity_and_acquire.2.1 _ true (by decide),
   pool_exclusivity_and_acquire.2.2
     { pool := [{ id := "browser_0", healthy := true, inUse := true },
                { id := "browser_1", healthy := true, inUse := false }], busy := ["browser_0"] }
     true [{ id := "browser_0", healthy := true, inUse := true }] []
     { id := "browser_1", healthy := true, inUse := false }
     { id := "browser_1", healthy := true, inUse := true }
     { pool := [{ id := "browser_0", healthy := true, inUse := true },
                { id := "browser_1", healthy := true, inUse := true }],
       busy := ["browser_1", "browser_0"] }
     (by decide) rfl⟩

/-! ## C5: unhealthy-slot replacement (code bug) -/

/-- A one-slot pool whose slot is free but unhealthy. -/
def unhealthySingleton : PoolState :=
  { pool := [{ id := "browser_0", healthy := false, inUse := false }], busy := [] }

/-- C5, evaluated at the failing input: acquiring the free unhealthy slot
(replacement launch succeeding) returns the stale pre-replacement
instance — the one whose browser was just torn down — while the in-pool
replacement slot keeps `inUse = false` and can be handed out again. -/
theorem unhealthy_replacement_returns_stale_instance :
    getBrowser unhealthySingleton true =
      (.ok { id := "browser_0", healthy := false, inUse := true },
       { pool := [{ id := "browser_0", healthy := true, inUse := false }], busy := ["browser_0"] })
    ∧ ((getBrowser unhealthySingleton true).2.pool.find?
          (fun b => b.id == "browser_0")).map (fun b => b.inUse) = some false := by
  exact ⟨rfl, rfl⟩

/-! ## C6: guaranteed release -/

theorem find?_releaseSlot (l : List Slot) (id : String) :
    ∀ s, (releaseSlot l id).find? (fun b => b.id == id) = some s → s.inUse = false := by
  induction l with
  | nil =>
    intro s h
    simp [releaseSlot] at h
  | cons a rest ih =>
    intro s h
    by_cases ha : a.id = id
    · simp only [releaseSlot, if_pos ha] at h
      rw [List.find?_cons_of_pos] at h
      · simp only [Option.some.injEq] at h
        simp [← h]
      · simp [ha]
    · simp only [releaseSlot, if_neg ha] at h
      rw [List.find?_cons_of_neg] at h
      · exact ih s h
      · simp [ha]

/-- C6: whenever `takeSnapshotScreenshot` successfully acquires a pool
slot, the slot carrying that id has `inUse = false` in the pool state the
call leaves behind, whether the render body succeeded or threw. -/
theorem browser_released_after_screenshot :
    ∀ (st : PoolState) (db : Db) (id : String) (o : RenderOracle) (inst : Slot) (st1 : PoolState),
      getBrowser st o.launchOk = (.ok inst, st1) →
      ∀ s, (takeSnapshotScreenshot st db id o).2.1.pool.find? (fun b => b.id == inst.id) = some s →
        s.inUse = false := by
  intro st db id o inst st1 hacq s hs
  simp only [takeSnapshotScreenshot, hacq] at hs
  exact find?_releaseSlot st1.pool inst.id s hs

/-- Witness: a concrete render whose capture step fails still leaves the
acquired slot released. -/
theorem browser_released_after_screenshot_witness :
    ({ id := "browser_0", healthy := true, inUse := false } : Slot).inUse = false :=
  browser_released_after_screenshot (initialPoolState 1)
    [("s1", { html := some "<p>x</p>", css := none, viewport_width := none,
              viewport_height := none, processing_status := "processing",
              processed_at := none, queue_job_id := none, screenshot := none,
              screenshot_format := none, screenshot_width := none,
              screenshot_height := none, screenshot_size := none })]
    "s1" { launchOk := true, newPageOk := true, loadOk := true, captureOk := false,
           bytes := [], saveOk := true }
    { id := "browser_0", healthy := true, inUse := true }
    { pool := [{ id := "browser_0", healthy := true, inUse := true }], busy := ["browser_0"] }
    rfl
    { id := "browser_0", healthy := true, inUse := false }
    rfl

/-! ## C7: scripts disabled before content load -/

theorem screenshotWithBrowser_trace_safe (db : Db) (id : String) (o : RenderOracle) :
    noLoadWhileJsEnabled true (screenshotWithBrowser db id o).2.2 = true
    ∧ Ev.enableJs ∉ (screenshotWithBrowser db id o).2.2 := by
  unfold screenshotWithBrowser
  cases hsnap : dbGetSnapshot db id with
  | none => simp [noLoadWhileJsEnabled]
  | some snap =>
    by_cases hh : htmlFalsy snap.html = true
    · simp [hh, noLoadWhileJsEnabled]
    · by_cases hnp : o.newPageOk = false
      · simp [hh, hnp, noLoadWhileJsEnabled]
      · cases hb : buildCompleteHtml snap.html with
        | error e => simp [hh, hnp, hb, noLoadWhileJsEnabled]
        | ok fullHtml =>
          by_cases hl : o.loadOk = false
          · simp [hh, hnp, hb, hl, noLoadWhileJsEnabled]
          · by_cases hc : o.captureOk = false
            · simp [hh, hnp, hb, hl, hc, noLoadWhileJsEnabled]
            · by_cases hs : o.saveOk = false <;>
                simp [hh, hnp, hb, hl, hc, hs, noLoadWhileJsEnabled]

/-- C7: in every render — whatever the snapshot, pool state or external
outcomes — the event trace of `takeSnapshotScreenshot` never loads the
reconstructed document while page JavaScript is enabled (pages start with
it enabled, and `setJavaScriptEnabled(false)` precedes every
`setContent`), and no event ever re-enables script execution. -/
theorem scripts_disabled_before_content_load :
    ∀ (st : PoolState) (db : Db) (id : String) (o : RenderOracle),
      noLoadWhileJsEnabled true (takeSnapshotScreenshot st db id o).2.2.2 = true
      ∧ Ev.enableJs ∉ (takeSnapshotScreenshot st db id o).2.2.2 := by
  intro st db id o
  rcases hacq : getBrowser st o.launchOk with ⟨res, st1⟩
  cases res with
  | error e =>
    simp [takeSnapshotScreenshot, hacq, noLoadWhileJsEnabled]
  | ok inst =>
    simp only [takeSnapshotScreenshot, hacq]
    exact screenshotWithBrowser_trace_safe db id o

/-! ## String lemmas for the URL rewrite -/

theorem devUrl_length : devUrl.length = 11 := rfl

theorem comUrl_length : comUrl.length = 11 := rfl

/-- No proper suffix of the pattern (nor the pattern itself) is a prefix
of the replacement. -/
theorem drop_devUrl_not_prefix_comUrl :
    ∀ m, m < 11 → 1 ≤ m → ¬ devUrl.drop m <+: comUrl := by decide

/-- No suffix of the replacement (the replacement itself included) is a
prefix of the pattern. -/
theorem drop_comUrl_not_prefix_devUrl :
    ∀ m, m < 11 → ¬ comUrl.drop m <+: devUrl := by decide

/-- A nonempty proper suffix of the pattern is never a prefix of the
replacement followed by anything. -/
theorem drop_devUrl_not_prefix_comUrl_append (x : List Char) (m : Nat)
    (h1 : 1 ≤ m) (h2 : m ≤ 10) : ¬ devUrl.drop m <+: comUrl ++ x := by
  intro hp
  have hlen : (devUrl.drop m).length ≤ comUrl.length := by
    rw [List.length_drop, devUrl_length, comUrl_length]
    omega
  have hpc : devUrl.drop m <+: comUrl :=
    List.prefix_of_prefix_length_le hp (List.prefix_append comUrl x) hlen
  exact drop_devUrl_not_prefix_comUrl m (by omega) h1 hpc

/-- If a nonempty proper suffix of the pattern is a prefix of the rewrite
of `t`, it was already a prefix of `t` itself (the rewrite only replaces
full pattern occurrences, and no such suffix can reach into an emitted
replacement block). -/
theorem drop_devUrl_prefix_of_replace (t : List Char) :
    ∀ m, 1 ≤ m → m ≤ 10 → devUrl.drop m <+: replaceJustfly t → devUrl.drop m <+: t := by
  induction t using replaceJustfly.induct with
  | case1 =>
    intro m h1 h2 hp
    rw [replaceJustfly] at hp
    have hnil : devUrl.drop m = [] := List.prefix_nil.mp hp
    have hlen : devUrl.length - m = 0 := by rw [← List.length_drop, hnil]; rfl
    rw [devUrl_length] at hlen
    omega
  | case2 c rest hpre ih =>
    intro m h1 h2 hp
    rw [replaceJustfly, if_pos hpre] at hp
    exact absurd hp (drop_devUrl_not_prefix_comUrl_append _ m h1 h2)
  | case3 c rest hpre ih =>
    intro m h1 h2 hp
    rw [replaceJustfly, if_neg hpre] at hp
    have hm : m < devUrl.length := by rw [devUrl_length]; omega
    rw [List.drop_eq_getElem_cons hm, List.cons_prefix_cons] at hp
    obtain ⟨hc, htail⟩ := hp
    by_cases hm10 : m = 10
    · subst hm10
      rw [List.drop_eq_getElem_cons hm, List.cons_prefix_cons]
      refine ⟨hc, ?_⟩
      have : devUrl.drop 11 = [] := rfl
      rw [this]
      exact List.nil_prefix
    · have hrec := ih (m + 1) (by omega) (by omega) htail
      rw [List.drop_eq_getElem_cons hm, List.cons_prefix_cons]
      exact ⟨hc, hrec⟩

/-- After the rewrite, the pattern `justfly.dev` occurs nowhere: every
occurrence in the input was replaced and no new occurrence can be
assembled across replacement boundaries. -/
theorem devUrl_not_infix_replaceJustfly (t : List Char) :
    ¬ devUrl <:+: replaceJustfly t := by
  induction t using replaceJustfly.induct with
  | case1 =>
    rw [replaceJustfly]
    intro h
    have : devUrl = [] := List.infix_nil.mp h
    exact absurd this (by decide)
  | case2 c rest hpre ih =>
    rw [replaceJustfly, if_pos hpre]
    intro hinf
    obtain ⟨u, v, huv⟩ := hinf
    rw [List.append_assoc] at huv
    by_cases hu : comUrl.length ≤ u.length
    · have hupre : u <+: comUrl ++ replaceJustfly (rest.drop 10) := ⟨devUrl ++ v, huv⟩
      have hcu : comUrl <+: u :=
        List.prefix_of_prefix_length_le (List.prefix_append _ _) hupre hu
      obtain ⟨u2, hu2⟩ := hcu
      have huv2 : comUrl ++ (u2 ++ (devUrl ++ v)) = comUrl ++ replaceJustfly (rest.drop 10) := by
        rw [← List.append_assoc, hu2]
        exact huv
      have h3 := List.append_cancel_left huv2
      refine ih ⟨u2, v, ?_⟩
      rw [List.append_assoc]
      exact h3
    · push_neg at hu
      rw [comUrl_length] at hu
      have hdrop : (u ++ (devUrl ++ v)).drop u.length = devUrl ++ v := List.drop_left u _
      rw [huv] at hdrop
      have hsplit : (comUrl ++ replaceJustfly (rest.drop 10)).drop u.length =
          comUrl.drop u.length ++ replaceJustfly (rest.drop 10) := by
        rw [List.drop_append_eq_append_drop]
        have : u.length - comUrl.length = 0 := by rw [comUrl_length]; omega
        rw [this, List.drop_zero]
      rw [hsplit] at hdrop
      have hdp : devUrl <+: comUrl.drop u.length ++ replaceJustfly (rest.drop 10) :=
        ⟨v, hdrop.symm⟩
      have hlen : (comUrl.drop u.length).length ≤ devUrl.length := by
        have h1 := List.length_drop u.length comUrl
        rw [comUrl_length] at h1
        rw [h1, devUrl_length]
        omega
      have hcd : comUrl.drop u.length <+: devUrl :=
        List.prefix_of_prefix_length_le (List.prefix_append _ _) hdp hlen
      exact drop_comUrl_not_prefix_devUrl u.length (by omega) hcd
  | case3 c rest hpre ih =>
    rw [replaceJustfly, if_neg hpre]
    intro hinf
    obtain ⟨u, v, huv⟩ := hinf
    cases u with
    | nil =>
      simp only [List.nil_append] at huv
      have hdev : devUrl = 'j' :: devUrl.drop 1 := by decide
      have hp : devUrl <+: c :: replaceJustfly rest := ⟨v, huv⟩
      rw [hdev, List.cons_prefix_cons] at hp
      obtain ⟨hc, htail⟩ := hp
      have hrest : devUrl.drop 1 <+: rest :=
        drop_devUrl_prefix_of_replace rest 1 (by omega) (by omega) htail
      apply hpre
      rw [List.isPrefixOf_iff_prefix, hdev, List.cons_prefix_cons]
      exact ⟨hc, hrest⟩
    | cons a u2 =>
      simp only [List.cons_append, List.cons.injEq] at huv
      exact ih ⟨u2, v, huv.2⟩

/-- Rewriting a string that contains the pattern changes it. -/
theorem replaceJustfly_changes_input (t : List Char) (h : devUrl <:+: t) :
    replaceJustfly t ≠ t := by
  induction t using replaceJustfly.induct with
  | case1 =>
    have : devUrl = [] := List.infix_nil.mp h
    exact absurd this (by decide)
  | case2 c rest hpre ih =>
    rw [replaceJustfly, if_pos hpre]
    have hp : devUrl <+: c :: rest := List.isPrefixOf_iff_prefix.mp hpre
    obtain ⟨r2, hr2⟩ := hp
    intro heq
    rw [← hr2] at heq
    have hed : comUrl = devUrl :=
      (List.append_inj heq (by rw [comUrl_length, devUrl_length])).1
    exact absurd hed (by decide)
  | case3 c rest hpre ih =>
    rw [replaceJustfly, if_neg hpre]
    have hinf : devUrl <:+: rest := by
      obtain ⟨u, v, huv⟩ := h
      cases u with
      | nil =>
        exfalso
        apply hpre
        rw [List.isPrefixOf_iff_prefix]
        exact ⟨v, by simpa using huv⟩
      | cons a u2 =>
        simp only [List.cons_append, List.cons.injEq] at huv
        exact ⟨u2, v, huv.2⟩
    intro heq
    exact ih hinf (List.cons.inj heq).2

/-! ## C10: trim lemmas and the URL rewrite claim -/

theorem mem_dropWhile_of_not_ws {l : List Char} {c : Char} (hc : c ∈ l)
    (hw : jsWs c = false) : c ∈ l.dropWhile jsWs := by
  induction l with
  | nil => cases hc
  | cons a rest ih =>
    by_cases ha : jsWs a = true
    · rw [List.dropWhile_cons_of_pos ha]
      rcases List.mem_cons.mp hc with h | h
      · rw [h] at hw
        exact absurd ha (by simp [hw])
      · exact ih h
    · rw [List.dropWhile_cons_of_neg ha]
      exact hc

theorem jsTrim_ne_nil_of_mem {l : List Char} {c : Char} (hc : c ∈ l)
    (hw : jsWs c = false) : jsTrim l ≠ [] := by
  unfold jsTrim
  have h1 : c ∈ l.dropWhile jsWs := mem_dropWhile_of_not_ws hc hw
  have h2 : c ∈ (l.dropWhile jsWs).reverse := List.mem_reverse.mpr h1
  have h3 : c ∈ (l.dropWhile jsWs).reverse.dropWhile jsWs := mem_dropWhile_of_not_ws h2 hw
  have h4 : c ∈ ((l.dropWhile jsWs).reverse.dropWhile jsWs).reverse := List.mem_reverse.mpr h3
  exact List.ne_nil_of_mem h4

theorem mem_j_of_devUrl_occurs {l : List Char} (h : devUrl <:+: l) : 'j' ∈ l := by
  obtain ⟨u, v, huv⟩ := h
  rw [← huv]
  have hj : 'j' ∈ devUrl := by decide
  exact List.mem_append.mpr (Or.inl (List.mem_append.mpr (Or.inr hj)))

/-- C10: in the latest `BrowserService` iteration, `buildCompleteHtml`
rewrites the captured HTML before rendering: any HTML containing
`justfly.dev` passes the empty-content guard, comes out as the global
`justfly.dev → justfly.com` replacement, contains no remaining
`justfly.dev` occurrence, and differs from the stored snapshot HTML — so
the screenshot is produced from content that is not the stored content. -/
theorem buildCompleteHtml_rewrites_dev_urls :
    ∀ s : String, devUrl <:+: s.data →
      ∃ out, buildCompleteHtml (some s) = .ok out
        ∧ out.data = replaceJustfly s.data
        ∧ ¬ devUrl <:+: out.data
        ∧ out.data ≠ s.data := by
  intro s hinf
  have htrim : jsTrim s.data ≠ [] :=
    jsTrim_ne_nil_of_mem (mem_j_of_devUrl_occurs hinf) (by decide)
  refine ⟨String.mk (replaceJustfly s.data), ?_, rfl, ?_, ?_⟩
  · simp [buildCompleteHtml, htrim]
  · exact devUrl_not_infix_replaceJustfly s.data
  · exact replaceJustfly_changes_input s.data hinf

/-- Witness: the rewrite on a concrete captured page containing a
`justfly.dev` URL. -/
theorem buildCompleteHtml_rewrites_dev_urls_witness :
    ∃ out, buildCompleteHtml (some "<a href=\x22http://justfly.dev/a\x22>x</a>") = .ok out
      ∧ out.data = replaceJustfly "<a href=\x22http://justfly.dev/a\x22>x</a>".data
      ∧ ¬ devUrl <:+: out.data
      ∧ out.data ≠ "<a href=\x22http://justfly.dev/a\x22>x</a>".data :=
  buildCompleteHtml_rewrites_dev_urls "<a href=\x22http://justfly.dev/a\x22>x</a>" (by decide)

/-! ## Store and render lemmas -/

theorem dbGetSnapshot_updateRow (db : Db) (id : String) (f : SnapshotRow → SnapshotRow) :
    dbGetSnapshot (updateRow db id f) id = (dbGetSnapshot db id).map f := by
  induction db with
  | nil => rfl
  | cons p rest ih =>
    obtain ⟨k, v⟩ := p
    simp only [updateRow, List.map_cons]
    by_cases hk : k = id
    · rw [if_pos (show (k, v).1 = id from hk)]
      simp only [dbGetSnapshot]
      rw [if_pos hk, if_pos hk, Option.map_some']
    · rw [if_neg (show ¬(k, v).1 = id from hk)]
      simp only [dbGetSnapshot]
      rw [if_neg hk, if_neg hk]
      exact ih

theorem isSome_dbGetSnapshot_updateRow (db : Db) (id : String) (f : SnapshotRow → SnapshotRow) :
    (dbGetSnapshot (updateRow db id f) id).isSome = (dbGetSnapshot db id).isSome := by
  rw [dbGetSnapshot_updateRow]
  cases dbGetSnapshot db id <;> rfl

theorem jobCatch_error (db : Db) (st : PoolState) (id msg : String) (evs : List Ev) (b : Bool) :
    (jobCatch db st id msg evs b).1 = .error msg := by
  unfold jobCatch
  split <;> rfl

/-- On every failing run, the render body neither persisted a screenshot
nor touched the store, and its trace records no screenshot write. -/
theorem takeSnapshotScreenshot_error (st : PoolState) (db : Db) (id : String) (o : RenderOracle)
    {e : String} {stR : PoolState} {dbR : Db} {evsR : List Ev}
    (h : takeSnapshotScreenshot st db id o = (.error e, stR, dbR, evsR)) :
    dbR = db ∧ ∀ i, Ev.screenshotWrite i ∉ evsR := by
  rcases hacq : getBrowser st o.launchOk with ⟨res0, st1⟩
  cases res0 with
  | error e0 =>
    simp only [takeSnapshotScreenshot, hacq, Prod.mk.injEq] at h
    obtain ⟨-, -, hdb, hevs⟩ := h
    exact ⟨hdb.symm, by simp [← hevs]⟩
  | ok inst =>
    simp only [takeSnapshotScreenshot, hacq, Prod.mk.injEq] at h
    obtain ⟨hres, -, hdb, hevs⟩ := h
    revert hres hdb hevs
    unfold screenshotWithBrowser
    cases hsnap : dbGetSnapshot db id with
    | none =>
      intro hres hdb hevs
      exact ⟨hdb.symm, by simp [← hevs]⟩
    | some snap =>
      by_cases hh : htmlFalsy snap.html = true
      · simp only [hh, if_true]
        intro hres hdb hevs
        exact ⟨hdb.symm, by simp [← hevs]⟩
      · by_cases hnp : o.newPageOk = false
        · simp only [hh, if_false, hnp, if_true]
          intro hres hdb hevs
          exact ⟨hdb.symm, by simp [← hevs]⟩
        · cases hb : buildCompleteHtml snap.html with
          | error e2 =>
            simp only [hh, if_false, hnp, hb]
            intro hres hdb hevs
            exact ⟨hdb.symm, by simp [← hevs]⟩
          | ok fullHtml =>
            by_cases hl : o.loadOk = false
            · simp only [hh, if_false, hnp, hb, hl, if_true]
              intro hres hdb hevs
              exact ⟨hdb.symm, by simp [← hevs]⟩
            · by_cases hcp : o.captureOk = false
              · simp only [hh, if_false, hnp, hb, hl, hcp, if_true]
                intro hres hdb hevs
                exact ⟨hdb.symm, by simp [← hevs]⟩
              · by_cases hsv : o.saveOk = false
                · simp only [hh, if_false, hnp, hb, hl, hcp, hsv, if_true]
                  intro hres hdb hevs
                  exact ⟨hdb.symm, by simp [← hevs]⟩
                · simp only [hh, if_false, hnp, hb, hl, hcp, hsv]
                  intro hres
                  cases hres

/-- On every successful run, the render body looked the snapshot up,
persisted its screenshot bytes with png format metadata at the snapshot's
viewport, and its trace has the fixed success shape. -/
theorem takeSnapshotScreenshot_ok (st : PoolState) (db : Db) (id : String) (o : RenderOracle)
    {r : ScreenshotResult} {stR : PoolState} {dbR : Db} {evsR : List Ev}
    (h : takeSnapshotScreenshot st db id o = (.ok r, stR, dbR, evsR)) :
    ∃ snap fullHtml, dbGetSnapshot db id = some snap
      ∧ dbR = saveScreenshot db id o.bytes "png"
          (jsNatOr snap.viewport_width 1920) (jsNatOr snap.viewport_height 1080)
      ∧ evsR = [Ev.newPage, Ev.disableJs,
          Ev.setViewport (jsNatOr snap.viewport_width 1920) (jsNatOr snap.viewport_height 1080),
          Ev.loadContent fullHtml, Ev.capture, Ev.screenshotWrite id, Ev.closePage] := by
  rcases hacq : getBrowser st o.launchOk with ⟨res0, st1⟩
  cases res0 with
  | error e0 =>
    simp only [takeSnapshotScreenshot, hacq, Prod.mk.injEq] at h
    exact absurd h.1 (by simp)
  | ok inst =>
    simp only [takeSnapshotScreenshot, hacq, Prod.mk.injEq] at h
    obtain ⟨hres, -, hdb, hevs⟩ := h
    revert hres hdb hevs
    unfold screenshotWithBrowser
    cases hsnap : dbGetSnapshot db id with
    | none =>
      intro hres hdb hevs
      cases hres
    | some snap =>
      by_cases hh : htmlFalsy snap.html = true
      · simp only [hh, if_true]
        intro hres hdb hevs
        cases hres
      · by_cases hnp : o.newPageOk = false
        · simp only [hh, if_false, hnp, if_true]
          intro hres hdb hevs
          cases hres
        · cases hb : buildCompleteHtml snap.html with
          | error e2 =>
            simp only [hh, if_false, hnp, hb]
            intro hres hdb hevs
            cases hres
          | ok fullHtml =>
            by_cases hl : o.loadOk = false
            · simp only [hh, if_false, hnp, hb, hl, if_true]
              intro hres hdb hevs
              cases hres
            · by_cases hcp : o.captureOk = false
              · simp only [hh, if_false, hnp, hb, hl, hcp, if_true]
                intro hres hdb hevs
                cases hres
              · by_cases hsv : o.saveOk = false
                · simp only [hh, if_false, hnp, hb, hl, hcp, hsv, if_true]
                  intro hres hdb hevs
                  cases hres
                · simp only [hh, if_false, hnp, hb, hl, hcp, hsv]
                  intro hres hdb hevs
                  exact ⟨snap, fullHtml, rfl, hdb.symm, hevs.symm⟩

/-! ## Event-log lemmas -/

theorem goodLog_append_of_no_screenshot {l : List Ev}
    (h : ∀ i, Ev.screenshotWrite i ∉ l) (t : List Ev) :
    goodLog (l ++ t) = goodLog t := by
  induction l with
  | nil => rfl
  | cons e rest ih =>
    have h2 : ∀ i, Ev.screenshotWrite i ∉ rest :=
      fun i hi => h i (List.mem_cons_of_mem e hi)
    cases e with
    | screenshotWrite i => exact absurd (List.mem_cons_self _ _) (h i)
    | newPage => simpa [goodLog] using ih h2
    | disableJs => simpa [goodLog] using ih h2
    | enableJs => simpa [goodLog] using ih h2
    | setViewport w hh => simpa [goodLog] using ih h2
    | loadContent s => simpa [goodLog] using ih h2
    | capture => simpa [goodLog] using ih h2
    | closePage => simpa [goodLog] using ih h2
    | statusWrite i s => simpa [goodLog] using ih h2

theorem goodLog_success_shape (id fh : String) (vw vh : Nat) (t : List Ev) :
    goodLog (([Ev.statusWrite id "processing"] ++
        [Ev.newPage, Ev.disableJs, Ev.setViewport vw vh, Ev.loadContent fh, Ev.capture,
         Ev.screenshotWrite id, Ev.closePage] ++ [Ev.statusWrite id "completed"]) ++ t) =
      goodLog t := by
  simp [goodLog, firstTerminalFor]

theorem jobCatch_log_good (db : Db) (st : PoolState) (id msg : String) (evs : List Ev) (b : Bool)
    (hevs : ∀ i, Ev.screenshotWrite i ∉ evs) (t : List Ev) (ht : goodLog t = true) :
    goodLog ((jobCatch db st id msg evs b).2.2.2 ++ t) = true := by
  unfold jobCatch
  split
  · show goodLog ((evs ++ [Ev.statusWrite id "failed"]) ++ t) = true
    rw [List.append_assoc, goodLog_append_of_no_screenshot hevs]
    rw [goodLog_append_of_no_screenshot (fun i hi => by simp at hi)]
    exact ht
  · show goodLog (evs ++ t) = true
    rw [goodLog_append_of_no_screenshot hevs]
    exact ht

/-- Any single job run whose `completed` status write does not fail
leaves a good event log in front of any continuation. -/
theorem processSnapshotJob_log_good (st : PoolState) (db : Db) (id : String) (o : JobOracle)
    (hc : o.completedWriteOk = true) (t : List Ev) (ht : goodLog t = true) :
    goodLog ((processSnapshotJob st db id o).2.2.2 ++ t) = true := by
  unfold processSnapshotJob
  cases hsnap : dbGetSnapshot db id with
  | none => exact jobCatch_log_good _ _ _ _ _ _ (fun i hi => by cases hi) t ht
  | some snap =>
    by_cases hp : o.processingWriteOk = false
    · simp only [if_pos hp]
      exact jobCatch_log_good _ _ _ _ _ _ (fun i hi => by cases hi) t ht
    · simp only [hp, if_false]
      rcases hts : takeSnapshotScreenshot st (updateSnapshotStatus db id "processing" none) id
          o.render with ⟨res2, st2, db2, evs2⟩
      cases res2 with
      | error e =>
        simp only [hts]
        apply jobCatch_log_good
        · intro i hi
          rcases List.mem_append.mp hi with hi | hi
          · simp at hi
          · exact (takeSnapshotScreenshot_error _ _ _ _ hts).2 i hi
        · exact ht
      | ok r =>
        simp only [hts]
        have hcf : ¬(o.completedWriteOk = false) := by simp [hc]
        simp only [hcf, if_false]
        obtain ⟨snap1, fh, hsnap1, hdbR, hevs⟩ := takeSnapshotScreenshot_ok _ _ _ _ hts
        subst hevs
        exact (goodLog_success_shape id fh
          (jsNatOr snap1.viewport_width 1920) (jsNatOr snap1.viewport_height 1080) t).trans ht

theorem dbGetSnapshot_updateSnapshotStatus_self (db : Db) (id status : String)
    (pAt : Option String) {snap : SnapshotRow} (hs : dbGetSnapshot db id = some snap) :
    dbGetSnapshot (updateSnapshotStatus db id status pAt) id =
      some { snap with processing_status := status, processed_at := pAt } := by
  rw [updateSnapshotStatus, dbGetSnapshot_updateRow, hs, Option.map_some']

theorem dbGetSnapshot_saveScreenshot_self (db : Db) (id : String) (bytes : List Nat)
    (fmt : String) (w h : Nat) {snap : SnapshotRow} (hs : dbGetSnapshot db id = some snap) :
    dbGetSnapshot (saveScreenshot db id bytes fmt w h) id =
      some { snap with
             screenshot := some bytes
             screenshot_format := some fmt
             screenshot_width := some w
             screenshot_height := some h
             screenshot_size := some bytes.length } := by
  rw [saveScreenshot, dbGetSnapshot_updateRow, hs, Option.map_some']

theorem dbGetSnapshot_cleanup_self (db : Db) (id : String) {snap : SnapshotRow}
    (hs : dbGetSnapshot db id = some snap) :
    dbGetSnapshot (cleanupSnapshotDomData db id) id =
      some { snap with html := none, css := none } := by
  rw [cleanupSnapshotDomData, dbGetSnapshot_updateRow, hs, Option.map_some']

theorem runJobs_log_good : ∀ (runs : List (String × JobOracle)) (st : PoolState) (db : Db),
    (∀ p ∈ runs, (p.2).completedWriteOk = true) →
    goodLog (runJobs st db runs).2.2 = true := by
  intro runs
  induction runs with
  | nil =>
    intro st db h
    rfl
  | cons pr rest ih =>
    intro st db h
    obtain ⟨id, o⟩ := pr
    show goodLog ((processSnapshotJob st db id o).2.2.2 ++
      (runJobs (processSnapshotJob st db id o).2.1 (processSnapshotJob st db id o).2.2.1
        rest).2.2) = true
    exact processSnapshotJob_log_good _ _ _ _ (h (id, o) (List.mem_cons_self _ _)) _
      (ih _ _ (fun p hp => h p (List.mem_cons_of_mem _ hp)))

/-! ## C1: completion persists a screenshot; screenshots imply a completed record -/

/-- C1: a job run that completes on a snapshot with non-empty stored HTML
leaves the snapshot `completed` with a persisted screenshot whose format
metadata is set, so `getScreenshot` returns non-null bytes; and over
every sequence of job runs (with reliable `completed` status writes),
every persisted screenshot is followed by a `completed` status record for
its id before any other terminal status record for that id — the most
recent terminal status behind non-null screenshot bytes, prior to any
subsequent replay, is `completed`. -/
theorem completion_screenshot_and_success_record :
    (∀ (st : PoolState) (db : Db) (id : String) (o : JobOracle)
        (res : Except String JobResult) (st2 : PoolState) (db2 : Db) (evs : List Ev)
        (r : JobResult),
      processSnapshotJob st db id o = (res, st2, db2, evs) →
      (∃ snap h, dbGetSnapshot db id = some snap ∧ snap.html = some h ∧ h ≠ "") →
      res = .ok r →
      statusOf db2 id = some "completed"
        ∧ ∃ row, getScreenshot db2 id = some row
            ∧ row.screenshot = some o.render.bytes
            ∧ row.screenshot_format = some "png")
    ∧ (∀ (st : PoolState) (db : Db) (runs : List (String × JobOracle)),
        (∀ p ∈ runs, (p.2).completedWriteOk = true) →
        goodLog (runJobs st db runs).2.2 = true) := by
  constructor
  · intro st db id o res st2 db2 evs r hrun hhtml hok
    subst hok
    unfold processSnapshotJob at hrun
    obtain ⟨snap0, h0, hsnap0, -, -⟩ := hhtml
    simp only [hsnap0] at hrun
    by_cases hp : o.processingWriteOk = false
    · rw [if_pos hp] at hrun
      have := congrArg Prod.fst hrun
      rw [jobCatch_error] at this
      cases this
    · rw [if_neg hp] at hrun
      rcases hts : takeSnapshotScreenshot st (updateSnapshotStatus db id "processing" none) id
          o.render with ⟨res2, stA, dbA, evsA⟩
      cases res2 with
      | error e =>
        simp only [hts] at hrun
        have := congrArg Prod.fst hrun
        rw [jobCatch_error] at this
        cases this
      | ok r2 =>
        simp only [hts] at hrun
        by_cases hcw : o.completedWriteOk = false
        · rw [if_pos hcw] at hrun
          have := congrArg Prod.fst hrun
          rw [jobCatch_error] at this
          cases this
        · rw [if_neg hcw] at hrun
          simp only [Prod.mk.injEq] at hrun
          obtain ⟨-, -, hdb2, -⟩ := hrun
          obtain ⟨snap1, fh, hsnap1, hdbA, -⟩ := takeSnapshotScreenshot_ok _ _ _ _ hts
          have hA : dbGetSnapshot dbA id =
              some { snap1 with
                     screenshot := some o.render.bytes
                     screenshot_format := some "png"
                     screenshot_width := some (jsNatOr snap1.viewport_width 1920)
                     screenshot_height := some (jsNatOr snap1.viewport_height 1080)
                     screenshot_size := some o.render.bytes.length } := by
            rw [hdbA]
            exact dbGetSnapshot_saveScreenshot_self _ _ _ _ _ _ hsnap1
          rw [← hdb2]
          by_cases hcl : o.cleanupOk = true
          · simp only [if_pos hcl]
            have hB := dbGetSnapshot_cleanup_self dbA id hA
            have hC := dbGetSnapshot_updateSnapshotStatus_self _ id "completed"
              (some o.now) hB
            refine ⟨by simp [statusOf, hC], ?_⟩
            refine ⟨{ screenshot := some o.render.bytes
                      screenshot_format := some "png"
                      screenshot_width := some (jsNatOr snap1.viewport_width 1920)
                      screenshot_height := some (jsNatOr snap1.viewport_height 1080)
                      screenshot_size := some o.render.bytes.length }, ?_, rfl, rfl⟩
            simp only [getScreenshot, hC, Option.map_some']
          · rw [if_neg hcl]
            have hC := dbGetSnapshot_updateSnapshotStatus_self _ id "completed"
              (some o.now) hA
            refine ⟨by simp [statusOf, hC], ?_⟩
            refine ⟨{ screenshot := some o.render.bytes
                      screenshot_format := some "png"
                      screenshot_width := some (jsNatOr snap1.viewport_width 1920)
                      screenshot_height := some (jsNatOr snap1.viewport_height 1080)
                      screenshot_size := some o.render.bytes.length }, ?_, rfl, rfl⟩
            simp only [getScreenshot, hC, Option.map_some']
  · exact fun st db runs h => runJobs_log_good runs st db h

/-- Witness: a concrete successful run on a one-snapshot store ends
`completed` with the captured png bytes retrievable, and a two-run replay
sequence (a failure after a success) keeps the event log good. -/
theorem completion_screenshot_and_success_record_witness :
    (statusOf (processSnapshotJob (initialPoolState 1)
        [("s1", { html := some "<p>x</p>", css := none, viewport_width := none,
                  viewport_height := none, processing_status := "queued", processed_at := none,
                  queue_job_id := none, screenshot := none, screenshot_format := none,
                  screenshot_width := none, screenshot_height := none,
                  screenshot_size := none })]
        "s1"
        { render := { launchOk := true, newPageOk := true, loadOk := true, captureOk := true,
                      bytes := [7, 7], saveOk := true },
          processingWriteOk := true, cleanupOk := true, completedWriteOk := true,
          failedWriteOk := true, now := "t0" }).2.2.1 "s1" = some "completed"
      ∧ ∃ row, getScreenshot (processSnapshotJob (initialPoolState 1)
        [("s1", { html := some "<p>x</p>", css := none, viewport_width := none,
                  viewport_height := none, processing_status := "queued", processed_at := none,
                  queue_job_id := none, screenshot := none, screenshot_format := none,
                  screenshot_width := none, screenshot_height := none,
                  screenshot_size := none })]
        "s1"
        { render := { launchOk := true, newPageOk := true, loadOk := true, captureOk := true,
                      bytes := [7, 7], saveOk := true },
          processingWriteOk := true, cleanupOk := true, completedWriteOk := true,
          failedWriteOk := true, now := "t0" }).2.2.1 "s1" = some row
          ∧ row.screenshot = some [7, 7]
          ∧ row.screenshot_format = some "png")
      ∧ goodLog (runJobs (initialPoolState 1) []
          [("s2", { render := { launchOk := true, newPageOk := true, loadOk := true,
                                captureOk := true, bytes := [], saveOk := true },
                    processingWriteOk := true, cleanupOk := true, completedWriteOk := true,
                    failedWriteOk := true, now := "t1" })]).2.2 = true :=
  ⟨completion_screenshot_and_success_record.1 (initialPoolState 1)
    [("s1", { html := some "<p>x</p>", css := none, viewport_width := none,
              viewport_height := none, processing_status := "queued", processed_at := none,
              queue_job_id := none, screenshot := none, screenshot_format := none,
              screenshot_width := none, screenshot_height := none, screenshot_size := none })]
    "s1"
    { render := { launchOk := true, newPageOk := true, loadOk := true, captureOk := true,
                  bytes := [7, 7], saveOk := true },
      processingWriteOk := true, cleanupOk := true, completedWriteOk := true,
      failedWriteOk := true, now := "t0" }
    _ _ _ _
    { snapshotId := "s1", status := "completed", htmlSize := 8, domDataCleaned := true }
    rfl
    ⟨{ html := some "<p>x</p>", css := none, viewport_width := none, viewport_height := none,
       processing_status := "queued", processed_at := none, queue_job_id := none,
       screenshot := none, screenshot_format := none, screenshot_width := none,
       screenshot_height := none, screenshot_size := none }, "<p>x</p>", rfl, rfl, by decide⟩
    rfl,
   completion_screenshot_and_success_record.2 (initialPoolState 1) [] _ (by decide)⟩

/-! ## C4: failures mark the snapshot failed and rethrow unchanged -/

/-- C4: when a step after loading the snapshot fails (any error out of the
render phase, pool acquisition included), the orchestrator rethrows that
error unchanged — so the queue retry policy sees it — after a best-effort
`failed` status write: if the write works the snapshot reads `failed`,
and if the write itself fails the store is left as the failing step left
it, the failure being only logged. -/
theorem failure_marks_failed_and_rethrows :
    ∀ (st : PoolState) (db : Db) (id : String) (o : JobOracle) (snap : SnapshotRow)
      (m : String) (stR : PoolState) (dbR : Db) (evsR : List Ev),
      dbGetSnapshot db id = some snap →
      o.processingWriteOk = true →
      takeSnapshotScreenshot st (updateSnapshotStatus db id "processing" none) id o.render =
        (.error m, stR, dbR, evsR) →
      (processSnapshotJob st db id o).1 = .error m
        ∧ (o.failedWriteOk = true →
            statusOf (processSnapshotJob st db id o).2.2.1 id = some "failed")
        ∧ (o.failedWriteOk = false → (processSnapshotJob st db id o).2.2.1 = dbR) := by
  intro st db id o snap m stR dbR evsR hsnap hpw hts
  have hdbR : dbR = updateSnapshotStatus db id "processing" none :=
    (takeSnapshotScreenshot_error _ _ _ _ hts).1
  have hrun : processSnapshotJob st db id o =
      jobCatch dbR stR id m ([Ev.statusWrite id "processing"] ++ evsR) o.failedWriteOk := by
    unfold processSnapshotJob
    rw [hsnap]
    simp only [hpw, Bool.true_eq_false, if_false]
    rw [hts]
  refine ⟨by rw [hrun, jobCatch_error], ?_, ?_⟩
  · intro hfw
    rw [hrun]
    unfold jobCatch
    rw [if_pos hfw]
    have hlook : dbGetSnapshot dbR id =
        some { snap with processing_status := "processing", processed_at := none } := by
      rw [hdbR]
      exact dbGetSnapshot_updateSnapshotStatus_self _ _ _ _ hsnap
    have := dbGetSnapshot_updateSnapshotStatus_self dbR id "failed" none hlook
    simp [statusOf, this]
  · intro hfw
    rw [hrun]
    unfold jobCatch
    rw [if_neg (by simp [hfw])]

/-- Witness: a run whose render step fails for want of HTML content
rethrows that exact error and marks the concrete snapshot `failed`. -/
theorem failure_marks_failed_and_rethrows_witness :
    (processSnapshotJob (initialPoolState 1)
        [("s9", { html := none, css := none, viewport_width := none, viewport_height := none,
                  processing_status := "queued", processed_at := none, queue_job_id := none,
                  screenshot := none, screenshot_format := none, screenshot_width := none,
                  screenshot_height := none, screenshot_size := none })]
        "s9"
        { render := { launchOk := true, newPageOk := true, loadOk := true, captureOk := true,
                      bytes := [], saveOk := true },
          processingWriteOk := true, cleanupOk := true, completedWriteOk := true,
          failedWriteOk := true, now := "t0" }).1 =
      .error "No HTML content available for snapshot s9"
      ∧ statusOf (processSnapshotJob (initialPoolState 1)
          [("s9", { html := none, css := none, viewport_width := none, viewport_height := none,
                    processing_status := "queued", processed_at := none, queue_job_id := none,
                    screenshot := none, screenshot_format := none, screenshot_width := none,
                    screenshot_height := none, screenshot_size := none })]
          "s9"
          { render := { launchOk := true, newPageOk := true, loadOk := true, captureOk := true,
                        bytes := [], saveOk := true },
            processingWriteOk := true, cleanupOk := true, completedWriteOk := true,
            failedWriteOk := true, now := "t0" }).2.2.1 "s9" = some "failed" := by
  have h := failure_marks_failed_and_rethrows (initialPoolState 1)
    [("s9", { html := none, css := none, viewport_width := none, viewport_height := none,
              processing_status := "queued", processed_at := none, queue_job_id := none,
              screenshot := none, screenshot_format := none, screenshot_width := none,
              screenshot_height := none, screenshot_size := none })]
    "s9"
    { render := { launchOk := true, newPageOk := true, loadOk := true, captureOk := true,
                  bytes := [], saveOk := true },
      processingWriteOk := true, cleanupOk := true, completedWriteOk := true,
      failedWriteOk := true, now := "t0" }
    { html := none, css := none, viewport_width := none, viewport_height := none,
      processing_status := "queued", processed_at := none, queue_job_id := none,
      screenshot := none, screenshot_format := none, screenshot_width := none,
      screenshot_height := none, screenshot_size := none }
    "No HTML content available for snapshot s9"
    { pool := [{ id := "browser_0", healthy := true, inUse := false }], busy := [] }
    [("s9", { html := none, css := none, viewport_width := none, viewport_height := none,
              processing_status := "processing", processed_at := none, queue_job_id := none,
              screenshot := none, screenshot_format := none, screenshot_width := none,
              screenshot_height := none, screenshot_size := none })]
    [] rfl rfl rfl
  exact ⟨h.1, h.2.1 rfl⟩

end SnapshotService
